import Mathlib

/-!
Shallow embedding of the Carta example application core
(src/carta.py and src/securities.py).

The API client (class CartaAPI in carta.py) is modelled as pure functions:
the HTTP transport becomes an explicit function from requests to responses,
the mutable access token becomes an explicit argument, raised exceptions
become an error sum type, and the unbounded while-True pagination loops are
totalised with an explicit fuel argument counting loop iterations (a result
of none means the loop did not finish within the given number of
iterations).  Each accessor also returns the trace of HTTP requests it
issued, so that claims about which requests are attempted can be stated.

The data shaper (securities.py) is modelled with records of optional
fields: a pandas DataFrame becomes a list of association-list rows plus an
explicit column list, and Python dict .get chains become Option.bind
chains.
-/

/-- CartaAPI.API_BASE_URL. -/
def API_BASE_URL : String := "https://api.playground.carta.team"

/-- CartaAPI.TOKEN_URL. -/
def TOKEN_URL : String := "https://login.playground.carta.team/o/access_token/"

/-- The ValueError message raised when no access token is set. -/
def unauthMessage : String := "Access token not set. Please authenticate first."

/-- One GET request issued by a paginated accessor: the URL and the query
parameters pageSize and, when present, pageToken. -/
structure Req where
  path : String
  pageSize : Nat
  pageToken : Option String
deriving DecidableEq, Repr

/-- An HTTP failure as produced by response.raise_for_status: the status
code and the response body. -/
structure HttpFailure where
  status : Nat
  body : String
deriving DecidableEq, Repr

/-- A parsed JSON page body as the pagination loops read it: the named item
arrays present in the body (a Python dict, modelled as an association
list; items are kept opaque as strings) and the optional nextPageToken. -/
structure PageBody where
  arrays : List (String × List String)
  nextPageToken : Option String
deriving DecidableEq, Repr

/-- Errors an accessor can produce: the ValueError from _get_headers when
the token is unset (the Unauthenticated case of the spec taxonomy), or an
HTTP error propagated from raise_for_status. -/
inductive ApiError where
  | unauthenticated : String → ApiError
  | http : HttpFailure → ApiError
deriving DecidableEq, Repr

/-- Python truthiness of an optional string as used by the source in
"if not self._access_token" and "if not next_page_token": None and the
empty string are falsy. -/
def pyTruthy : Option String → Bool
  | none => false
  | some s => s != ""

/-- The pageToken query parameter actually sent, mirroring the source:
params gets a pageToken entry only when next_page_token is truthy. -/
def pyOptTok (t : Option String) : Option String := if pyTruthy t then t else none

/-- The items a page body contributes, mirroring the source:
if key in data, extend with data[key], else nothing. -/
def itemsOf (b : PageBody) (key : String) : List String :=
  (List.lookup key b.arrays).getD []

/-- The HTTP transport: requests.get, already composed with
raise_for_status and response.json() — a non-2xx status becomes an error
carrying status and body, a success becomes the parsed page body. -/
abbrev Fetch := Req → Except HttpFailure PageBody

/-- The pagination while-loop shared verbatim by list_restricted_stock_units
and list_restricted_stock_awards (headers are built before the loop, so no
token check happens inside).  Arguments after the fuel: the current
next_page_token, the accumulator list, and the trace of issued requests.
Result: none means fuel ran out (the source loop is unbounded). -/
def pagLoop (f : Fetch) (path key : String) (ps : Nat) :
    Nat → Option String → List String → List Req →
    Option (Except ApiError (List String)) × List Req
  | 0, _, _, reqs => (none, reqs)
  | fuel + 1, tok, acc, reqs =>
    let req : Req := ⟨path, ps, pyOptTok tok⟩
    match f req with
    | .error e => (some (.error (.http e)), reqs ++ [req])
    | .ok b =>
      let acc2 := acc ++ itemsOf b key
      if pyTruthy b.nextPageToken then
        pagLoop f path key ps fuel b.nextPageToken acc2 (reqs ++ [req])
      else
        (some (.ok acc2), reqs ++ [req])

/-- The pagination while-loop of list_portfolios, list_portfolio_issuers,
get_portfolio_certificates and list_option_grants: these call
_get_headers() inside every iteration, before issuing the request, so the
token check is performed at the top of each iteration. -/
def pagLoopChk (token : Option String) (f : Fetch) (path key : String) (ps : Nat) :
    Nat → Option String → List String → List Req →
    Option (Except ApiError (List String)) × List Req
  | 0, _, _, reqs => (none, reqs)
  | fuel + 1, tok, acc, reqs =>
    if pyTruthy token then
      let req : Req := ⟨path, ps, pyOptTok tok⟩
      match f req with
      | .error e => (some (.error (.http e)), reqs ++ [req])
      | .ok b =>
        let acc2 := acc ++ itemsOf b key
        if pyTruthy b.nextPageToken then
          pagLoopChk token f path key ps fuel b.nextPageToken acc2 (reqs ++ [req])
        else
          (some (.ok acc2), reqs ++ [req])
    else
      (some (.error (.unauthenticated unauthMessage)), reqs)

/-- URL of the portfolios endpoint. -/
def portfoliosPath : String := API_BASE_URL ++ "/v1alpha1/portfolios"

/-- URL of the issuers endpoint for a portfolio. -/
def issuersPath (portfolio_id : String) : String :=
  API_BASE_URL ++ "/v1alpha1/portfolios/" ++ portfolio_id ++ "/issuers"

/-- URL of the certificates endpoint for a portfolio issuer. -/
def certificatesPath (portfolio_id issuer_id : String) : String :=
  API_BASE_URL ++ "/v1alpha1/portfolios/" ++ portfolio_id ++ "/issuers/" ++ issuer_id ++
    "/certificates"

/-- URL of the option grants endpoint for a portfolio issuer. -/
def optionGrantsPath (portfolio_id issuer_id : String) : String :=
  API_BASE_URL ++ "/v1alpha1/portfolios/" ++ portfolio_id ++ "/issuers/" ++ issuer_id ++
    "/optionGrants"

/-- URL of the RSU endpoint for a portfolio issuer. -/
def rsusPath (portfolio_id issuer_id : String) : String :=
  API_BASE_URL ++ "/v1alpha1/portfolios/" ++ portfolio_id ++ "/issuers/" ++ issuer_id ++
    "/restrictedStockUnits"

/-- URL of the RSA endpoint for a portfolio issuer. -/
def rsasPath (portfolio_id issuer_id : String) : String :=
  API_BASE_URL ++ "/v1alpha1/portfolios/" ++ portfolio_id ++ "/issuers/" ++ issuer_id ++
    "/restrictedStockAwards"

/-- CartaAPI.list_portfolios. -/
def list_portfolios (token : Option String) (f : Fetch) (page_size fuel : Nat) :
    Option (Except ApiError (List String)) × List Req :=
  pagLoopChk token f portfoliosPath "portfolios" page_size fuel none [] []

/-- CartaAPI.list_portfolio_issuers. -/
def list_portfolio_issuers (token : Option String) (f : Fetch) (portfolio_id : String)
    (page_size fuel : Nat) : Option (Except ApiError (List String)) × List Req :=
  pagLoopChk token f (issuersPath portfolio_id) "issuers" page_size fuel none [] []

/-- CartaAPI.get_portfolio_certificates. -/
def get_portfolio_certificates (token : Option String) (f : Fetch)
    (portfolio_id issuer_id : String) (page_size fuel : Nat) :
    Option (Except ApiError (List String)) × List Req :=
  pagLoopChk token f (certificatesPath portfolio_id issuer_id) "certificates"
    page_size fuel none [] []

/-- CartaAPI.list_option_grants. -/
def list_option_grants (token : Option String) (f : Fetch)
    (portfolio_id issuer_id : String) (page_size fuel : Nat) :
    Option (Except ApiError (List String)) × List Req :=
  pagLoopChk token f (optionGrantsPath portfolio_id issuer_id) "optionGrants"
    page_size fuel none [] []

/-- CartaAPI.list_restricted_stock_units: the token is checked once, before
the loop, and the headers are reused for every page. -/
def list_restricted_stock_units (token : Option String) (f : Fetch)
    (portfolio_id issuer_id : String) (page_size fuel : Nat) :
    Option (Except ApiError (List String)) × List Req :=
  if pyTruthy token then
    pagLoop f (rsusPath portfolio_id issuer_id) "restrictedStockUnits"
      page_size fuel none [] []
  else
    (some (.error (.unauthenticated unauthMessage)), [])

/-- CartaAPI.list_restricted_stock_awards: like the RSU accessor, the token
is checked once before the loop. -/
def list_restricted_stock_awards (token : Option String) (f : Fetch)
    (portfolio_id issuer_id : String) (page_size fuel : Nat) :
    Option (Except ApiError (List String)) × List Req :=
  if pyTruthy token then
    pagLoop f (rsasPath portfolio_id issuer_id) "restrictedStockAwards"
      page_size fuel none [] []
  else
    (some (.error (.unauthenticated unauthMessage)), [])

/-- The POST request sent by exchange_code_for_token: URL, form data and the
HTTP basic auth credentials. -/
structure TokenRequest where
  url : String
  grant_type : String
  code : String
  redirect_uri : String
  client_id : String
  auth_user : String
  auth_pass : String
deriving DecidableEq, Repr

/-- The raw response of the token endpoint as the source reads it: status
code, body text and the parsed JSON body (kept as a flat string map). -/
structure TokenHttpResponse where
  status : Nat
  text : String
  jsonBody : List (String × String)
deriving DecidableEq, Repr

/-- Whether response.raise_for_status raises for this status code
(client errors 4xx and server errors 5xx). -/
def statusRaises (s : Nat) : Bool := decide (400 ≤ s) && decide (s < 600)

/-- requests.Response.ok, which is defined in the requests library as
"raise_for_status does not raise". -/
def respOk (s : Nat) : Bool := !statusRaises s

/-- CartaAPI.exchange_code_for_token.  The transport is the post function;
the st.error display calls on a failed exchange are returned as the first
component (the surfaced error messages), and the second component is the
outcome of raise_for_status followed by response.json(). -/
def exchange_code_for_token (client_id client_secret redirect_uri : String)
    (post : TokenRequest → TokenHttpResponse) (code : String) (state : Option String) :
    List String × Except HttpFailure (List (String × String)) :=
  let _ := state
  let resp := post
    ⟨TOKEN_URL, "authorization_code", code, redirect_uri, client_id, client_id, client_secret⟩
  let surfaced :=
    if respOk resp.status then []
    else ["Token exchange failed: " ++ toString resp.status, "Response: " ++ resp.text]
  if statusRaises resp.status then (surfaced, .error ⟨resp.status, resp.text⟩)
  else (surfaced, .ok resp.jsonBody)

/-!
Data shaper, securities.py.  Raw security records are JSON dicts whose
nested monetary and quantity fields are optional at every level; they are
modelled as records of Option fields ({value} wrappers and
{amount: {value}} wrappers), and the .get chains of the source become
Option.bind chains.  All leaf values are kept as strings.
-/

/-- A {value: ...} wrapper whose value may be absent. -/
structure Wrapped where
  value : Option String
deriving DecidableEq, Repr

/-- An {amount: {value: ...}} wrapper whose amount may be absent. -/
structure MoneyAmount where
  amount : Option Wrapped
deriving DecidableEq, Repr

/-- A raw certificate record; every field is optional. -/
structure Certificate where
  securityLabel : Option String
  shareClassName : Option String
  quantity : Option Wrapped
  issueDate : Option Wrapped
  pricePerShare : Option MoneyAmount
deriving DecidableEq, Repr

/-- A raw option grant record; every field is optional. -/
structure OptionGrant where
  grantLabel : Option String
  shareClassName : Option String
  grantDate : Option Wrapped
  expirationDate : Option Wrapped
  exercisePrice : Option MoneyAmount
  totalShares : Option Wrapped
  vestedShares : Option Wrapped
  unvestedShares : Option Wrapped
deriving DecidableEq, Repr

/-- A raw RSU record; every field is optional. -/
structure Rsu where
  grantLabel : Option String
  shareClassName : Option String
  grantDate : Option Wrapped
  totalShares : Option Wrapped
  vestedShares : Option Wrapped
  unvestedShares : Option Wrapped
deriving DecidableEq, Repr

/-- A raw RSA record; every field is optional. -/
structure Rsa where
  grantLabel : Option String
  shareClassName : Option String
  grantDate : Option Wrapped
  totalShares : Option Wrapped
  vestedShares : Option Wrapped
  unvestedShares : Option Wrapped
deriving DecidableEq, Repr

/-- rec.get(key, \x7b\x7d).get("value"): absent at either level gives None. -/
def getVal (w : Option Wrapped) : Option String := w.bind Wrapped.value

/-- rec.get(key, \x7b\x7d).get("amount", \x7b\x7d).get("value"): absent at
any level gives None. -/
def getAmountVal (m : Option MoneyAmount) : Option String :=
  (m.bind MoneyAmount.amount).bind Wrapped.value

/-- The currency f-string of the per-type formatters: a dollar sign
followed by the extracted amount value, defaulting to "0.00" when any
nesting level is absent. -/
def dollar (m : Option MoneyAmount) : String := "$" ++ (getAmountVal m).getD "0.00"

/-- One row, as the source builds it: a Python dict from column names to
optional values, modelled as an association list. -/
abbrev Row := List (String × Option String)

/-- The cell of a row at a column: a key absent from the dict or an
explicit None both show as a null (NaN) cell in the DataFrame. -/
def cell (r : Row) (c : String) : Option String := (List.lookup c r).getD none

/-- A DataFrame: the explicit column list passed to pd.DataFrame plus the
row dicts. -/
structure Frame where
  columns : List String
  rows : List Row
deriving DecidableEq, Repr

/-- CERTIFICATE_COLUMNS. -/
def CERTIFICATE_COLUMNS : List String :=
  ["Security Label", "Share Class", "Quantity", "Issue Date", "Price Per Share"]

/-- OPTION_GRANT_COLUMNS. -/
def OPTION_GRANT_COLUMNS : List String :=
  ["Grant Label", "Share Class", "Grant Date", "Expiration Date", "Exercise Price",
    "Total Shares", "Vested Shares", "Unvested Shares"]

/-- RSU_COLUMNS. -/
def RSU_COLUMNS : List String :=
  ["Grant Label", "Share Class", "Grant Date", "Total Shares", "Vested Shares",
    "Unvested Shares"]

/-- RSA_COLUMNS. -/
def RSA_COLUMNS : List String :=
  ["Grant Label", "Share Class", "Grant Date", "Total Shares", "Vested Shares",
    "Unvested Shares"]

/-- ALL_SECURITIES_COLUMNS. -/
def ALL_SECURITIES_COLUMNS : List String :=
  ["Security Type", "Portfolio ID", "Issuer ID", "Security Label", "Share Class",
    "Quantity", "Issue Date", "Price Per Share", "Grant Date", "Expiration Date",
    "Exercise Price", "Total Shares", "Vested Shares", "Unvested Shares"]

/-- The row dict built for one certificate in format_certificates_data. -/
def certRow (c : Certificate) : Row :=
  [("Security Label", c.securityLabel),
   ("Share Class", c.shareClassName),
   ("Quantity", getVal c.quantity),
   ("Issue Date", getVal c.issueDate),
   ("Price Per Share", some (dollar c.pricePerShare))]

/-- format_certificates_data. -/
def format_certificates_data (certificates : List Certificate) : Frame :=
  ⟨CERTIFICATE_COLUMNS, certificates.map certRow⟩

/-- The row dict built for one option grant in format_option_grants_data. -/
def grantRow (g : OptionGrant) : Row :=
  [("Grant Label", g.grantLabel),
   ("Share Class", g.shareClassName),
   ("Grant Date", getVal g.grantDate),
   ("Expiration Date", getVal g.expirationDate),
   ("Exercise Price", some (dollar g.exercisePrice)),
   ("Total Shares", getVal g.totalShares),
   ("Vested Shares", getVal g.vestedShares),
   ("Unvested Shares", getVal g.unvestedShares)]

/-- format_option_grants_data. -/
def format_option_grants_data (grants : List OptionGrant) : Frame :=
  ⟨OPTION_GRANT_COLUMNS, grants.map grantRow⟩

/-- The row dict built for one RSU in format_rsus_data. -/
def rsuRow (u : Rsu) : Row :=
  [("Grant Label", u.grantLabel),
   ("Share Class", u.shareClassName),
   ("Grant Date", getVal u.grantDate),
   ("Total Shares", getVal u.totalShares),
   ("Vested Shares", getVal u.vestedShares),
   ("Unvested Shares", getVal u.unvestedShares)]

/-- format_rsus_data. -/
def format_rsus_data (rsus : List Rsu) : Frame :=
  ⟨RSU_COLUMNS, rsus.map rsuRow⟩

/-- The row dict built for one RSA in format_rsas_data. -/
def rsaRow (a : Rsa) : Row :=
  [("Grant Label", a.grantLabel),
   ("Share Class", a.shareClassName),
   ("Grant Date", getVal a.grantDate),
   ("Total Shares", getVal a.totalShares),
   ("Vested Shares", getVal a.vestedShares),
   ("Unvested Shares", getVal a.unvestedShares)]

/-- format_rsas_data. -/
def format_rsas_data (rsas : List Rsa) : Frame :=
  ⟨RSA_COLUMNS, rsas.map rsaRow⟩

/-- The union row built for one certificate in format_all_securities_data
(before the currency post-processing pass). -/
def certAllRow (portfolio_id issuer_id : String) (c : Certificate) : Row :=
  [("Security Type", some "Certificate"),
   ("Portfolio ID", some portfolio_id),
   ("Issuer ID", some issuer_id),
   ("Security Label", c.securityLabel),
   ("Share Class", c.shareClassName),
   ("Quantity", getVal c.quantity),
   ("Issue Date", getVal c.issueDate),
   ("Price Per Share", getAmountVal c.pricePerShare),
   ("Grant Date", none),
   ("Expiration Date", none),
   ("Exercise Price", none),
   ("Total Shares", getVal c.quantity),
   ("Vested Shares", none),
   ("Unvested Shares", none)]

/-- The union row built for one option grant in format_all_securities_data
(before the currency post-processing pass). -/
def grantAllRow (portfolio_id issuer_id : String) (g : OptionGrant) : Row :=
  [("Security Type", some "Option Grant"),
   ("Portfolio ID", some portfolio_id),
   ("Issuer ID", some issuer_id),
   ("Security Label", g.grantLabel),
   ("Share Class", g.shareClassName),
   ("Quantity", getVal g.totalShares),
   ("Issue Date", none),
   ("Price Per Share", none),
   ("Grant Date", getVal g.grantDate),
   ("Expiration Date", getVal g.expirationDate),
   ("Exercise Price", getAmountVal g.exercisePrice),
   ("Total Shares", getVal g.totalShares),
   ("Vested Shares", getVal g.vestedShares),
   ("Unvested Shares", getVal g.unvestedShares)]

/-- The union row built for one RSU in format_all_securities_data. -/
def rsuAllRow (portfolio_id issuer_id : String) (u : Rsu) : Row :=
  [("Security Type", some "RSU"),
   ("Portfolio ID", some portfolio_id),
   ("Issuer ID", some issuer_id),
   ("Security Label", u.grantLabel),
   ("Share Class", u.shareClassName),
   ("Quantity", getVal u.totalShares),
   ("Issue Date", none),
   ("Price Per Share", none),
   ("Grant Date", getVal u.grantDate),
   ("Expiration Date", none),
   ("Exercise Price", none),
   ("Total Shares", getVal u.totalShares),
   ("Vested Shares", getVal u.vestedShares),
   ("Unvested Shares", getVal u.unvestedShares)]

/-- The union row built for one RSA in format_all_securities_data. -/
def rsaAllRow (portfolio_id issuer_id : String) (a : Rsa) : Row :=
  [("Security Type", some "RSA"),
   ("Portfolio ID", some portfolio_id),
   ("Issuer ID", some issuer_id),
   ("Security Label", a.grantLabel),
   ("Share Class", a.shareClassName),
   ("Quantity", getVal a.totalShares),
   ("Issue Date", none),
   ("Price Per Share", none),
   ("Grant Date", getVal a.grantDate),
   ("Expiration Date", none),
   ("Exercise Price", none),
   ("Total Shares", getVal a.totalShares),
   ("Vested Shares", getVal a.vestedShares),
   ("Unvested Shares", getVal a.unvestedShares)]

/-- The currency post-processing pass of format_all_securities_data:
df[col] = df[col].apply(x maps to "$" + x if notnull else None). -/
def applyCurrencyCol (col : String) (r : Row) : Row :=
  r.map fun kv => if kv.1 = col then (kv.1, kv.2.map (fun x => "$" ++ x)) else kv

/-- format_all_securities_data: certificates, then option grants, then
RSUs, then RSAs, followed by the currency pass over "Price Per Share" and
"Exercise Price". -/
def format_all_securities_data (certificates : List Certificate)
    (option_grants : List OptionGrant) (rsus : List Rsu) (rsas : List Rsa)
    (portfolio_id issuer_id : String) : Frame :=
  let rows :=
    certificates.map (certAllRow portfolio_id issuer_id) ++
    option_grants.map (grantAllRow portfolio_id issuer_id) ++
    rsus.map (rsuAllRow portfolio_id issuer_id) ++
    rsas.map (rsaAllRow portfolio_id issuer_id)
  ⟨ALL_SECURITIES_COLUMNS,
    rows.map fun r => applyCurrencyCol "Exercise Price" (applyCurrencyCol "Price Per Share" r)⟩

/-!
Server behaviour predicates used to state the pagination claims.
-/

/-- The transport serves this list of pages for this endpoint, starting
from the given token: each page is fetched with the request the loop
builds, every page but the last carries a truthy (non-empty) nextPageToken
under which the transport serves the rest, and the last page omits the
token. -/
inductive Serves (f : Fetch) (path : String) (ps : Nat) :
    Option String → List PageBody → Prop where
  | last : ∀ tok b, f ⟨path, ps, pyOptTok tok⟩ = .ok b → b.nextPageToken = none →
      Serves f path ps tok [b]
  | cons : ∀ tok b rest, f ⟨path, ps, pyOptTok tok⟩ = .ok b →
      pyTruthy b.nextPageToken = true → Serves f path ps b.nextPageToken rest →
      Serves f path ps tok (b :: rest)

/-- The requests a run over these pages issues: one per page, the first
with the starting token and each later one with the nextPageToken of the
page before it. -/
def pageReqs (path : String) (ps : Nat) : Option String → List PageBody → List Req
  | _, [] => []
  | tok, b :: rest => ⟨path, ps, pyOptTok tok⟩ :: pageReqs path ps b.nextPageToken rest

/-- The concatenation of the named item arrays of the pages, in page
order; a page whose body lacks the named array contributes nothing. -/
def pagesItems (key : String) (pages : List PageBody) : List String :=
  (pages.map fun b => itemsOf b key).flatten

/-- The transport serves some successful pages (each with a truthy
nextPageToken) and then answers the request built from the given token
with an HTTP error; the Nat counts the successful pages before the
failure. -/
inductive FailsAt (f : Fetch) (path : String) (ps : Nat) :
    Option String → HttpFailure → Nat → Prop where
  | here : ∀ tok e, f ⟨path, ps, pyOptTok tok⟩ = .error e → FailsAt f path ps tok e 0
  | step : ∀ tok b e n, f ⟨path, ps, pyOptTok tok⟩ = .ok b →
      pyTruthy b.nextPageToken = true → FailsAt f path ps b.nextPageToken e n →
      FailsAt f path ps tok e (n + 1)

/-- The transport answers every request with a successful page carrying
the same non-empty nextPageToken. -/
def EchoesToken (f : Fetch) (t : String) : Prop :=
  ∀ r : Req, ∃ b : PageBody, f r = .ok b ∧ b.nextPageToken = some t

/-!
Concrete fixtures used by the witness and counterexample theorems.
-/

/-- A two-page transport fixture: the first request (no pageToken) gets
page one with nextPageToken "T2", the request with pageToken "T2" gets a
final page with no token.  It serves every endpoint key, so one fixture
covers all six accessors. -/
def twoPageFetch : Fetch := fun r =>
  match r.pageToken with
  | none => .ok ⟨[("portfolios", ["p1"]), ("issuers", ["i1"]), ("certificates", ["c1"]),
      ("optionGrants", ["g1"]), ("restrictedStockUnits", ["u1"]),
      ("restrictedStockAwards", ["a1"])], some "T2"⟩
  | some "T2" => .ok ⟨[("portfolios", ["p2"]), ("issuers", ["i2"]), ("certificates", ["c2"]),
      ("optionGrants", ["g2"]), ("restrictedStockUnits", ["u2"]),
      ("restrictedStockAwards", ["a2"])], none⟩
  | some _ => .error ⟨500, "unexpected token"⟩

/-- The first page body served by twoPageFetch. -/
def twoPageBody1 : PageBody :=
  ⟨[("portfolios", ["p1"]), ("issuers", ["i1"]), ("certificates", ["c1"]),
    ("optionGrants", ["g1"]), ("restrictedStockUnits", ["u1"]),
    ("restrictedStockAwards", ["a1"])], some "T2"⟩

/-- The second page body served by twoPageFetch. -/
def twoPageBody2 : PageBody :=
  ⟨[("portfolios", ["p2"]), ("issuers", ["i2"]), ("certificates", ["c2"]),
    ("optionGrants", ["g2"]), ("restrictedStockUnits", ["u2"]),
    ("restrictedStockAwards", ["a2"])], none⟩

/-- A transport fixture that answers every request with the same page
carrying the same non-empty nextPageToken "SAME": a server that echoes its
cursor forever. -/
def echoFetch : Fetch := fun _ =>
  .ok ⟨[("portfolios", ["p"]), ("issuers", ["i"]), ("certificates", ["c"]),
    ("optionGrants", ["g"]), ("restrictedStockUnits", ["u"]),
    ("restrictedStockAwards", ["a"])], some "SAME"⟩

/-- A transport fixture whose first page succeeds with nextPageToken "T2"
and whose second fetch fails with HTTP status 503: a mid-pagination
failure. -/
def failSecondFetch : Fetch := fun r =>
  match r.pageToken with
  | none => .ok ⟨[("portfolios", ["p1"]), ("issuers", ["i1"]), ("certificates", ["c1"]),
      ("optionGrants", ["g1"]), ("restrictedStockUnits", ["u1"]),
      ("restrictedStockAwards", ["a1"])], some "T2"⟩
  | some _ => .error ⟨503, "service unavailable"⟩

/-- The claim that pagination of the portfolios accessor against the
echoing transport terminates: for some number of loop iterations the run
finishes with a result. -/
def echoPortfoliosTerminates : Prop :=
  ∃ fuel, (list_portfolios (some "token") echoFetch 50 fuel).1 ≠ none

/-- A fully populated certificate fixture. -/
def certFix : Certificate :=
  ⟨some "CERT-123", some "Common Stock", some ⟨some "1000"⟩, some ⟨some "2024-01-01"⟩,
    some ⟨some ⟨some "10.50"⟩⟩⟩

/-- A fully populated option grant fixture. -/
def grantFix : OptionGrant :=
  ⟨some "OPT-456", some "Common Stock", some ⟨some "2024-01-01"⟩, some ⟨some "2034-01-01"⟩,
    some ⟨some ⟨some "5.00"⟩⟩, some ⟨some "2000"⟩, some ⟨some "500"⟩, some ⟨some "1500"⟩⟩

/-- A fully populated RSU fixture. -/
def rsuFix : Rsu :=
  ⟨some "RSU-789", some "Common Stock", some ⟨some "2024-01-01"⟩, some ⟨some "1000"⟩,
    some ⟨some "250"⟩, some ⟨some "750"⟩⟩

/-- A fully populated RSA fixture. -/
def rsaFix : Rsa :=
  ⟨some "RSA-012", some "Common Stock", some ⟨some "2024-01-01"⟩, some ⟨some "1000"⟩,
    some ⟨some "250"⟩, some ⟨some "750"⟩⟩

/-- A certificate fixture with every field absent. -/
def emptyCert : Certificate := ⟨none, none, none, none, none⟩

/-- An option grant fixture with every field absent. -/
def emptyGrant : OptionGrant := ⟨none, none, none, none, none, none, none, none⟩

/-- An RSU fixture with every field absent. -/
def emptyRsu : Rsu := ⟨none, none, none, none, none, none⟩

/-- An RSA fixture with every field absent. -/
def emptyRsa : Rsa := ⟨none, none, none, none, none, none⟩

/-!
Helper lemmas.
-/

/-- With a truthy token, the per-iteration token check of the four
accessors that call _get_headers inside the loop always passes, so their
loop behaves exactly like the check-free loop of the RSU and RSA
accessors. -/
theorem pagLoopChk_eq_pagLoop (token : Option String) (f : Fetch) (path key : String)
    (ps : Nat) (htok : pyTruthy token = true) :
    ∀ fuel tok acc reqs, pagLoopChk token f path key ps fuel tok acc reqs =
      pagLoop f path key ps fuel tok acc reqs := by
  intro fuel
  induction fuel with
  | zero => intro tok acc reqs; rfl
  | succ n ih =>
    intro tok acc reqs
    simp only [pagLoopChk, pagLoop, htok, if_true]
    cases hf : f ⟨path, ps, pyOptTok tok⟩ with
    | error e => rfl
    | ok b =>
      by_cases hb : pyTruthy b.nextPageToken
      · simp only [hb, if_true, ih]
      · simp only [hb, Bool.false_eq_true, if_false]

/-- A run of the pagination loop over a served page list returns the
accumulator extended with the concatenated page items and appends one
request per page to the trace. -/
theorem pagLoop_serves (f : Fetch) (path key : String) (ps : Nat) :
    ∀ pages tok, Serves f path ps tok pages →
    ∀ fuel acc reqs, pages.length ≤ fuel →
    pagLoop f path key ps fuel tok acc reqs =
      (some (.ok (acc ++ pagesItems key pages)), reqs ++ pageReqs path ps tok pages) := by
  intro pages tok hs
  induction hs with
  | last tok b hf hnone =>
    intro fuel acc reqs hlen
    cases fuel with
    | zero => simp at hlen
    | succ n =>
      simp [pagLoop, hf, hnone, pyTruthy, pagesItems, pageReqs]
  | cons tok b rest hf htr _ ih =>
    intro fuel acc reqs hlen
    cases fuel with
    | zero => simp at hlen
    | succ n =>
      have hlen2 : rest.length ≤ n := by simpa using hlen
      simp only [pagLoop, hf, htr, if_true]
      rw [ih n _ _ hlen2]
      simp [pagesItems, pageReqs, itemsOf]

/-- A truthy optional token is passed through unchanged as the pageToken
query parameter. -/
theorem pyOptTok_of_truthy (t : Option String) (ht : pyTruthy t = true) :
    pyOptTok t = t := by
  simp [pyOptTok, ht]

/-- With a truthy token and tok = none (the starting state of every
accessor), a checked run over served pages gives the concatenated items
and the page-by-page request trace. -/
theorem pagLoopChk_serves (token : Option String) (f : Fetch) (path key : String)
    (ps : Nat) (htok : pyTruthy token = true) (pages : List PageBody)
    (hs : Serves f path ps none pages) (fuel : Nat) (hlen : pages.length ≤ fuel) :
    pagLoopChk token f path key ps fuel none [] [] =
      (some (.ok (pagesItems key pages)), pageReqs path ps none pages) := by
  rw [pagLoopChk_eq_pagLoop token f path key ps htok]
  simpa using pagLoop_serves f path key ps pages none hs fuel [] [] hlen

/-- C1: every paginated accessor (list_portfolios, list_portfolio_issuers,
get_portfolio_certificates, list_option_grants,
list_restricted_stock_units, list_restricted_stock_awards), run against a
transport that serves N pages whose pages 1..N-1 carry a non-empty
nextPageToken and whose page N omits it, requests the first page without a
pageToken parameter and each later page with the previous page's
nextPageToken (the request trace is pageReqs, whose first request carries
no token and whose later requests carry the previous body's token
verbatim, as the first conjunct shows for truthy tokens), and returns
exactly the concatenation of the named item arrays of all N pages in page
order; a page whose body lacks the named array contributes nothing
(pagesItems looks the named array up and defaults to the empty list). -/
theorem pagination_concatenates_pages (token : String) (htok : token ≠ "")
    (f : Fetch) (ps fuel : Nat) (portfolio_id issuer_id : String) :
    (∀ t : Option String, pyTruthy t = true → pyOptTok t = t) ∧
    (∀ pages, Serves f portfoliosPath ps none pages → pages.length ≤ fuel →
      list_portfolios (some token) f ps fuel =
        (some (.ok (pagesItems "portfolios" pages)),
          pageReqs portfoliosPath ps none pages)) ∧
    (∀ pages, Serves f (issuersPath portfolio_id) ps none pages → pages.length ≤ fuel →
      list_portfolio_issuers (some token) f portfolio_id ps fuel =
        (some (.ok (pagesItems "issuers" pages)),
          pageReqs (issuersPath portfolio_id) ps none pages)) ∧
    (∀ pages, Serves f (certificatesPath portfolio_id issuer_id) ps none pages →
      pages.length ≤ fuel →
      get_portfolio_certificates (some token) f portfolio_id issuer_id ps fuel =
        (some (.ok (pagesItems "certificates" pages)),
          pageReqs (certificatesPath portfolio_id issuer_id) ps none pages)) ∧
    (∀ pages, Serves f (optionGrantsPath portfolio_id issuer_id) ps none pages →
      pages.length ≤ fuel →
      list_option_grants (some token) f portfolio_id issuer_id ps fuel =
        (some (.ok (pagesItems "optionGrants" pages)),
          pageReqs (optionGrantsPath portfolio_id issuer_id) ps none pages)) ∧
    (∀ pages, Serves f (rsusPath portfolio_id issuer_id) ps none pages →
      pages.length ≤ fuel →
      list_restricted_stock_units (some token) f portfolio_id issuer_id ps fuel =
        (some (.ok (pagesItems "restrictedStockUnits" pages)),
          pageReqs (rsusPath portfolio_id issuer_id) ps none pages)) ∧
    (∀ pages, Serves f (rsasPath portfolio_id issuer_id) ps none pages →
      pages.length ≤ fuel →
      list_restricted_stock_awards (some token) f portfolio_id issuer_id ps fuel =
        (some (.ok (pagesItems "restrictedStockAwards" pages)),
          pageReqs (rsasPath portfolio_id issuer_id) ps none pages)) := by
  have htok2 : pyTruthy (some token) = true := by simpa [pyTruthy] using htok
  refine ⟨pyOptTok_of_truthy, ?_, ?_, ?_, ?_, ?_, ?_⟩ <;>
    intro pages hs hlen
  · exact pagLoopChk_serves _ f _ _ ps htok2 pages hs fuel hlen
  · exact pagLoopChk_serves _ f _ _ ps htok2 pages hs fuel hlen
  · exact pagLoopChk_serves _ f _ _ ps htok2 pages hs fuel hlen
  · exact pagLoopChk_serves _ f _ _ ps htok2 pages hs fuel hlen
  · rw [list_restricted_stock_units, if_pos htok2]
    simpa using pagLoop_serves f _ _ ps pages none hs fuel [] [] hlen
  · rw [list_restricted_stock_awards, if_pos htok2]
    simpa using pagLoop_serves f _ _ ps pages none hs fuel [] [] hlen

/-- Witness for C1: the two-page fixture, followed for all six accessors;
the first request carries no pageToken, the second carries "T2", and the
result is the two pages' items in order. -/
theorem pagination_concatenates_pages_witness :
    list_portfolios (some "tok") twoPageFetch 50 2 =
      (some (.ok ["p1", "p2"]),
        [⟨portfoliosPath, 50, none⟩, ⟨portfoliosPath, 50, some "T2"⟩]) ∧
    list_portfolio_issuers (some "tok") twoPageFetch "P1" 50 2 =
      (some (.ok ["i1", "i2"]),
        [⟨issuersPath "P1", 50, none⟩, ⟨issuersPath "P1", 50, some "T2"⟩]) ∧
    get_portfolio_certificates (some "tok") twoPageFetch "P1" "I1" 50 2 =
      (some (.ok ["c1", "c2"]),
        [⟨certificatesPath "P1" "I1", 50, none⟩,
          ⟨certificatesPath "P1" "I1", 50, some "T2"⟩]) ∧
    list_option_grants (some "tok") twoPageFetch "P1" "I1" 50 2 =
      (some (.ok ["g1", "g2"]),
        [⟨optionGrantsPath "P1" "I1", 50, none⟩,
          ⟨optionGrantsPath "P1" "I1", 50, some "T2"⟩]) ∧
    list_restricted_stock_units (some "tok") twoPageFetch "P1" "I1" 50 2 =
      (some (.ok ["u1", "u2"]),
        [⟨rsusPath "P1" "I1", 50, none⟩, ⟨rsusPath "P1" "I1", 50, some "T2"⟩]) ∧
    list_restricted_stock_awards (some "tok") twoPageFetch "P1" "I1" 50 2 =
      (some (.ok ["a1", "a2"]),
        [⟨rsasPath "P1" "I1", 50, none⟩, ⟨rsasPath "P1" "I1", 50, some "T2"⟩]) := by
  have h := pagination_concatenates_pages "tok" (by decide) twoPageFetch 50 2 "P1" "I1"
  have hserves : ∀ path : String,
      Serves twoPageFetch path 50 none [twoPageBody1, twoPageBody2] :=
    fun path => Serves.cons _ _ _ rfl rfl (Serves.last _ _ rfl rfl)
  have hlen : ([twoPageBody1, twoPageBody2].length) ≤ 2 := by decide
  refine ⟨?_, ?_, ?_, ?_, ?_, ?_⟩
  · rw [h.2.1 _ (hserves _) hlen]; rfl
  · rw [h.2.2.1 _ (hserves _) hlen]; rfl
  · rw [h.2.2.2.1 _ (hserves _) hlen]; rfl
  · rw [h.2.2.2.2.1 _ (hserves _) hlen]; rfl
  · rw [h.2.2.2.2.2.1 _ (hserves _) hlen]; rfl
  · rw [h.2.2.2.2.2.2 _ (hserves _) hlen]; rfl

/-- C4: every authenticated list accessor invoked with no access token set
fails with the Unauthenticated ValueError ("Access token not set. Please
authenticate first.") before any network request is attempted: the result
is the error and the trace of issued requests is empty.  The client state
(the token) is passed immutably in this embedding, matching the source,
whose accessors never assign the token field.  For the four accessors
whose token check happens inside the loop body (via _get_headers), the
loop must run its always-taken first iteration, hence 0 < fuel; the RSU
and RSA accessors check before the loop. -/
theorem unauthenticated_fails_before_request (f : Fetch) (ps fuel : Nat)
    (portfolio_id issuer_id : String) (hfuel : 0 < fuel) :
    list_portfolios none f ps fuel =
      (some (.error (.unauthenticated unauthMessage)), []) ∧
    list_portfolio_issuers none f portfolio_id ps fuel =
      (some (.error (.unauthenticated unauthMessage)), []) ∧
    get_portfolio_certificates none f portfolio_id issuer_id ps fuel =
      (some (.error (.unauthenticated unauthMessage)), []) ∧
    list_option_grants none f portfolio_id issuer_id ps fuel =
      (some (.error (.unauthenticated unauthMessage)), []) ∧
    list_restricted_stock_units none f portfolio_id issuer_id ps fuel =
      (some (.error (.unauthenticated unauthMessage)), []) ∧
    list_restricted_stock_awards none f portfolio_id issuer_id ps fuel =
      (some (.error (.unauthenticated unauthMessage)), []) ∧
    unauthMessage = "Access token not set. Please authenticate first." := by
  obtain ⟨n, rfl⟩ : ∃ n, fuel = n + 1 := ⟨fuel - 1, by omega⟩
  refine ⟨?_, ?_, ?_, ?_, ?_, ?_, rfl⟩ <;> rfl

/-- Witness for C4: all six accessors at fuel 1 with no token set. -/
theorem unauthenticated_fails_before_request_witness :
    list_portfolios none twoPageFetch 50 1 =
      (some (.error (.unauthenticated unauthMessage)), []) ∧
    list_restricted_stock_units none twoPageFetch "P1" "I1" 50 1 =
      (some (.error (.unauthenticated unauthMessage)), []) ∧
    unauthMessage = "Access token not set. Please authenticate first." := by
  have h := unauthenticated_fails_before_request twoPageFetch 50 1 "P1" "I1" (by decide)
  exact ⟨h.1, h.2.2.2.2.1, h.2.2.2.2.2.2⟩

/-- Under a transport that always returns a page with the same non-empty
nextPageToken, the pagination loop never finishes, whatever the iteration
bound. -/
theorem pagLoop_echo (f : Fetch) (t : String) (path key : String) (ps : Nat)
    (he : EchoesToken f t) (ht : t ≠ "") :
    ∀ fuel tok acc reqs, (pagLoop f path key ps fuel tok acc reqs).1 = none := by
  intro fuel
  induction fuel with
  | zero => intro tok acc reqs; rfl
  | succ n ih =>
    intro tok acc reqs
    obtain ⟨b, hb, hbt⟩ := he ⟨path, ps, pyOptTok tok⟩
    have htr : pyTruthy b.nextPageToken = true := by simp [hbt, pyTruthy, ht]
    simp only [pagLoop, hb, htr, if_true]
    exact ih _ _ _

/-- Counterexample to C5: run against a transport that echoes the same
non-empty nextPageToken ("SAME") on every page, list_portfolios does not
terminate at all — for no iteration bound does the loop produce a result
(and in particular it never fails with any error on the repeated token;
the source has no guard and its error type has no protocol-error case). -/
theorem echo_pagination_never_terminates : ¬ echoPortfoliosTerminates := by
  rintro ⟨fuel, hne⟩
  apply hne
  rw [list_portfolios,
    pagLoopChk_eq_pagLoop (some "token") echoFetch portfoliosPath "portfolios" 50
      (by decide)]
  exact pagLoop_echo echoFetch "SAME" portfoliosPath "portfolios" 50
    (fun r => ⟨_, rfl, rfl⟩) (by decide) fuel none [] []

/-- C5 as amended: pagination does not terminate on every server
behaviour; against a transport that returns the same non-empty
nextPageToken on every page, each of the six accessors loops unboundedly —
for every iteration bound the loop has not produced any result (so no
error, protocol or otherwise, is ever raised on the repeated token). -/
theorem pagination_unbounded_on_echoed_token (f : Fetch) (t token : String)
    (he : EchoesToken f t) (ht : t ≠ "") (htok : token ≠ "")
    (portfolio_id issuer_id : String) (ps : Nat) :
    ∀ fuel,
      (list_portfolios (some token) f ps fuel).1 = none ∧
      (list_portfolio_issuers (some token) f portfolio_id ps fuel).1 = none ∧
      (get_portfolio_certificates (some token) f portfolio_id issuer_id ps fuel).1 =
        none ∧
      (list_option_grants (some token) f portfolio_id issuer_id ps fuel).1 = none ∧
      (list_restricted_stock_units (some token) f portfolio_id issuer_id ps fuel).1 =
        none ∧
      (list_restricted_stock_awards (some token) f portfolio_id issuer_id ps fuel).1 =
        none := by
  intro fuel
  have htok2 : pyTruthy (some token) = true := by simpa [pyTruthy] using htok
  refine ⟨?_, ?_, ?_, ?_, ?_, ?_⟩
  · rw [list_portfolios, pagLoopChk_eq_pagLoop _ _ _ _ _ htok2]
    exact pagLoop_echo f t _ _ ps he ht fuel none [] []
  · rw [list_portfolio_issuers, pagLoopChk_eq_pagLoop _ _ _ _ _ htok2]
    exact pagLoop_echo f t _ _ ps he ht fuel none [] []
  · rw [get_portfolio_certificates, pagLoopChk_eq_pagLoop _ _ _ _ _ htok2]
    exact pagLoop_echo f t _ _ ps he ht fuel none [] []
  · rw [list_option_grants, pagLoopChk_eq_pagLoop _ _ _ _ _ htok2]
    exact pagLoop_echo f t _ _ ps he ht fuel none [] []
  · rw [list_restricted_stock_units, if_pos htok2]
    exact pagLoop_echo f t _ _ ps he ht fuel none [] []
  · rw [list_restricted_stock_awards, if_pos htok2]
    exact pagLoop_echo f t _ _ ps he ht fuel none [] []

/-- Witness for the amended C5: the echoing fixture at iteration bound 3
leaves every accessor unfinished. -/
theorem pagination_unbounded_on_echoed_token_witness :
    (list_portfolios (some "tok") echoFetch 50 3).1 = none ∧
    (list_portfolio_issuers (some "tok") echoFetch "P1" 50 3).1 = none ∧
    (get_portfolio_certificates (some "tok") echoFetch "P1" "I1" 50 3).1 = none ∧
    (list_option_grants (some "tok") echoFetch "P1" "I1" 50 3).1 = none ∧
    (list_restricted_stock_units (some "tok") echoFetch "P1" "I1" 50 3).1 = none ∧
    (list_restricted_stock_awards (some "tok") echoFetch "P1" "I1" 50 3).1 = none :=
  pagination_unbounded_on_echoed_token echoFetch "SAME" "tok"
    (fun r => ⟨_, rfl, rfl⟩) (by decide) (by decide) "P1" "I1" 50 3

/-- When the transport fails after n successful pages, the loop surfaces
that HTTP error as its result, whatever was accumulated so far. -/
theorem pagLoop_failsAt (f : Fetch) (path key : String) (ps : Nat) :
    ∀ tok e n, FailsAt f path ps tok e n →
    ∀ fuel acc reqs, n < fuel →
    (pagLoop f path key ps fuel tok acc reqs).1 = some (.error (.http e)) := by
  intro tok e n h
  induction h with
  | here tok e hf =>
    intro fuel acc reqs hlt
    cases fuel with
    | zero => omega
    | succ m => simp [pagLoop, hf]
  | step tok b e n hf htr _ ih =>
    intro fuel acc reqs hlt
    cases fuel with
    | zero => omega
    | succ m =>
      simp only [pagLoop, hf, htr, if_true]
      exact ih m _ _ (by omega)

/-- C8: for every paginated accessor, if the fetch of a page after the
first fails (the transport serves n+1 pages and then answers with an HTTP
error), the accessor surfaces that error and returns no partial result:
its outcome is the error, never an ok-list, so the items accumulated from
the earlier pages are discarded. -/
theorem failed_page_discards_partial_results (token : String) (htok : token ≠ "")
    (f : Fetch) (ps fuel n : Nat) (e : HttpFailure) (portfolio_id issuer_id : String)
    (hfuel : n + 1 < fuel) :
    (FailsAt f portfoliosPath ps none e (n + 1) →
      (list_portfolios (some token) f ps fuel).1 = some (.error (.http e)) ∧
      ∀ items, (list_portfolios (some token) f ps fuel).1 ≠ some (.ok items)) ∧
    (FailsAt f (issuersPath portfolio_id) ps none e (n + 1) →
      (list_portfolio_issuers (some token) f portfolio_id ps fuel).1 =
        some (.error (.http e)) ∧
      ∀ items, (list_portfolio_issuers (some token) f portfolio_id ps fuel).1 ≠
        some (.ok items)) ∧
    (FailsAt f (certificatesPath portfolio_id issuer_id) ps none e (n + 1) →
      (get_portfolio_certificates (some token) f portfolio_id issuer_id ps fuel).1 =
        some (.error (.http e)) ∧
      ∀ items,
        (get_portfolio_certificates (some token) f portfolio_id issuer_id ps fuel).1 ≠
          some (.ok items)) ∧
    (FailsAt f (optionGrantsPath portfolio_id issuer_id) ps none e (n + 1) →
      (list_option_grants (some token) f portfolio_id issuer_id ps fuel).1 =
        some (.error (.http e)) ∧
      ∀ items,
        (list_option_grants (some token) f portfolio_id issuer_id ps fuel).1 ≠
          some (.ok items)) ∧
    (FailsAt f (rsusPath portfolio_id issuer_id) ps none e (n + 1) →
      (list_restricted_stock_units (some token) f portfolio_id issuer_id ps fuel).1 =
        some (.error (.http e)) ∧
      ∀ items,
        (list_restricted_stock_units (some token) f portfolio_id issuer_id ps fuel).1 ≠
          some (.ok items)) ∧
    (FailsAt f (rsasPath portfolio_id issuer_id) ps none e (n + 1) →
      (list_restricted_stock_awards (some token) f portfolio_id issuer_id ps fuel).1 =
        some (.error (.http e)) ∧
      ∀ items,
        (list_restricted_stock_awards (some token) f portfolio_id issuer_id ps fuel).1 ≠
          some (.ok items)) := by
  have htok2 : pyTruthy (some token) = true := by simpa [pyTruthy] using htok
  have step : ∀ path key res,
      res = pagLoop f path key ps fuel none [] [] →
      FailsAt f path ps none e (n + 1) →
      res.1 = some (.error (.http e)) ∧
      ∀ items : List String, res.1 ≠ some (.ok items) := by
    intro path key res hres hfail
    have heq : res.1 = some (.error (.http e)) := by
      rw [hres]; exact pagLoop_failsAt f path key ps none e (n + 1) hfail fuel [] [] hfuel
    refine ⟨heq, fun items hok => ?_⟩
    rw [heq] at hok
    simp at hok
  refine ⟨?_, ?_, ?_, ?_, ?_, ?_⟩ <;> intro hfail
  · exact step _ "portfolios" _
      (by rw [list_portfolios, pagLoopChk_eq_pagLoop _ _ _ _ _ htok2]) hfail
  · exact step _ "issuers" _
      (by rw [list_portfolio_issuers, pagLoopChk_eq_pagLoop _ _ _ _ _ htok2]) hfail
  · exact step _ "certificates" _
      (by rw [get_portfolio_certificates, pagLoopChk_eq_pagLoop _ _ _ _ _ htok2]) hfail
  · exact step _ "optionGrants" _
      (by rw [list_option_grants, pagLoopChk_eq_pagLoop _ _ _ _ _ htok2]) hfail
  · exact step _ "restrictedStockUnits" _
      (by rw [list_restricted_stock_units, if_pos htok2]) hfail
  · exact step _ "restrictedStockAwards" _
      (by rw [list_restricted_stock_awards, if_pos htok2]) hfail

/-- Witness for C8: the fixture whose second page fetch fails with HTTP
503 makes list_portfolios and list_restricted_stock_units surface the
error, with the first page's items discarded. -/
theorem failed_page_discards_partial_results_witness :
    (list_portfolios (some "tok") failSecondFetch 50 3).1 =
      some (.error (.http ⟨503, "service unavailable"⟩)) ∧
    (list_restricted_stock_units (some "tok") failSecondFetch "P1" "I1" 50 3).1 =
      some (.error (.http ⟨503, "service unavailable"⟩)) := by
  have h := failed_page_discards_partial_results "tok" (by decide) failSecondFetch
    50 3 0 ⟨503, "service unavailable"⟩ "P1" "I1" (by decide)
  have hfail : ∀ path : String,
      FailsAt failSecondFetch path 50 none ⟨503, "service unavailable"⟩ 1 :=
    fun path => FailsAt.step _ _ _ _ rfl rfl (FailsAt.here _ _ rfl)
  exact ⟨(h.1 (hfail _)).1, (h.2.2.2.2.1 (hfail _)).1⟩

/-- C9: exchange_code_for_token, on a non-success HTTP status from the
token endpoint, surfaces the error display carrying the response's status
code and body (the two st.error messages) and then still propagates a
transport-level error carrying status and body — it never returns a
token; on a success status it surfaces nothing and returns the parsed
JSON body. -/
theorem token_exchange_error_handling (client_id client_secret redirect_uri code :
    String) (state : Option String) (post : TokenRequest → TokenHttpResponse) :
    (respOk (post ⟨TOKEN_URL, "authorization_code", code, redirect_uri, client_id,
        client_id, client_secret⟩).status = false →
      (exchange_code_for_token client_id client_secret redirect_uri post code state).1 =
        ["Token exchange failed: " ++ toString (post ⟨TOKEN_URL, "authorization_code",
            code, redirect_uri, client_id, client_id, client_secret⟩).status,
          "Response: " ++ (post ⟨TOKEN_URL, "authorization_code", code, redirect_uri,
            client_id, client_id, client_secret⟩).text] ∧
      (exchange_code_for_token client_id client_secret redirect_uri post code state).2 =
        .error ⟨(post ⟨TOKEN_URL, "authorization_code", code, redirect_uri, client_id,
            client_id, client_secret⟩).status,
          (post ⟨TOKEN_URL, "authorization_code", code, redirect_uri, client_id,
            client_id, client_secret⟩).text⟩ ∧
      ∀ j, (exchange_code_for_token client_id client_secret redirect_uri post code
        state).2 ≠ .ok j) ∧
    (respOk (post ⟨TOKEN_URL, "authorization_code", code, redirect_uri, client_id,
        client_id, client_secret⟩).status = true →
      (exchange_code_for_token client_id client_secret redirect_uri post code state).1 =
        [] ∧
      (exchange_code_for_token client_id client_secret redirect_uri post code state).2 =
        .ok (post ⟨TOKEN_URL, "authorization_code", code, redirect_uri, client_id,
          client_id, client_secret⟩).jsonBody) := by
  constructor
  · intro hbad
    have hraises : statusRaises (post ⟨TOKEN_URL, "authorization_code", code,
        redirect_uri, client_id, client_id, client_secret⟩).status = true := by
      simpa [respOk] using hbad
    refine ⟨?_, ?_, ?_⟩ <;>
      simp [exchange_code_for_token, hraises, respOk]
  · intro hgood
    have hok : statusRaises (post ⟨TOKEN_URL, "authorization_code", code,
        redirect_uri, client_id, client_id, client_secret⟩).status = false := by
      simpa [respOk] using hgood
    constructor <;> simp [exchange_code_for_token, hok, respOk]

/-- Witness for C9: a transport answering 400 with body "invalid_grant"
surfaces both error messages and propagates the HTTP error; a transport
answering 200 returns the parsed token body. -/
theorem token_exchange_error_handling_witness :
    (exchange_code_for_token "cid" "sec" "uri"
        (fun _ => ⟨400, "invalid_grant", []⟩) "code" none).1 =
      ["Token exchange failed: 400", "Response: invalid_grant"] ∧
    (exchange_code_for_token "cid" "sec" "uri"
        (fun _ => ⟨400, "invalid_grant", []⟩) "code" none).2 =
      .error ⟨400, "invalid_grant"⟩ ∧
    (exchange_code_for_token "cid" "sec" "uri"
        (fun _ => ⟨200, "ok", [("access_token", "abc")]⟩) "code" none).2 =
      .ok [("access_token", "abc")] := by
  have hbad := (token_exchange_error_handling "cid" "sec" "uri" "code" none
    (fun _ => ⟨400, "invalid_grant", []⟩)).1 (by decide)
  have hgood := (token_exchange_error_handling "cid" "sec" "uri" "code" none
    (fun _ => ⟨200, "ok", [("access_token", "abc")]⟩)).2 (by decide)
  exact ⟨hbad.1, hbad.2.1, hgood.2⟩

/-- C7: each per-type formatter applied to an empty sequence returns a
table with zero rows and exactly its documented fixed column set in
documented order, and format_all_securities_data applied to four empty
sequences returns zero rows with the full ALL_SECURITIES_COLUMNS header in
order. -/
theorem empty_inputs_give_empty_tables :
    format_certificates_data [] = ⟨CERTIFICATE_COLUMNS, []⟩ ∧
    CERTIFICATE_COLUMNS =
      ["Security Label", "Share Class", "Quantity", "Issue Date", "Price Per Share"] ∧
    format_option_grants_data [] = ⟨OPTION_GRANT_COLUMNS, []⟩ ∧
    OPTION_GRANT_COLUMNS =
      ["Grant Label", "Share Class", "Grant Date", "Expiration Date", "Exercise Price",
        "Total Shares", "Vested Shares", "Unvested Shares"] ∧
    format_rsus_data [] = ⟨RSU_COLUMNS, []⟩ ∧
    RSU_COLUMNS =
      ["Grant Label", "Share Class", "Grant Date", "Total Shares", "Vested Shares",
        "Unvested Shares"] ∧
    format_rsas_data [] = ⟨RSA_COLUMNS, []⟩ ∧
    RSA_COLUMNS =
      ["Grant Label", "Share Class", "Grant Date", "Total Shares", "Vested Shares",
        "Unvested Shares"] ∧
    (∀ portfolio_id issuer_id,
      format_all_securities_data [] [] [] [] portfolio_id issuer_id =
        ⟨ALL_SECURITIES_COLUMNS, []⟩) ∧
    ALL_SECURITIES_COLUMNS =
      ["Security Type", "Portfolio ID", "Issuer ID", "Security Label", "Share Class",
        "Quantity", "Issue Date", "Price Per Share", "Grant Date", "Expiration Date",
        "Exercise Price", "Total Shares", "Vested Shares", "Unvested Shares"] :=
  ⟨rfl, rfl, rfl, rfl, rfl, rfl, rfl, rfl, fun _ _ => rfl, rfl⟩

/-- Counterexample to C2: a certificate whose pricePerShare is absent gets
a "Price Per Share" cell of "$0.00" in format_certificates_data, which is
neither a null cell nor an empty one (and likewise for an option grant's
absent exercisePrice); C2 claims every absent field, including the
currency fields, renders as a null/empty cell. -/
theorem absent_currency_cell_not_null :
    cell (certRow emptyCert) "Price Per Share" = some "$0.00" ∧
    ¬ (cell (certRow emptyCert) "Price Per Share" = none ∨
        cell (certRow emptyCert) "Price Per Share" = some "") ∧
    cell (grantRow emptyGrant) "Exercise Price" = some "$0.00" ∧
    ¬ (cell (grantRow emptyGrant) "Exercise Price" = none ∨
        cell (grantRow emptyGrant) "Exercise Price" = some "") := by
  decide

/-- C2 as amended: every per-type formatter is total over records missing
any optional nested field at any level (the embedding maps each record
through a total row function, conjuncts one to four); each column of a row
is the documented extraction of exactly one source field, so an absent
field cannot affect sibling columns (conjuncts seven to ten); an absent
field produces a null cell in its column — getVal gives none when either
nesting level is absent (conjunct five) — except the currency columns
"Price Per Share" and "Exercise Price", which render the literal "$0.00"
placeholder when any nesting level is absent (conjunct six). -/
theorem formatters_total_on_absent_fields :
    (∀ certificates, (format_certificates_data certificates).rows =
      certificates.map certRow) ∧
    (∀ grants, (format_option_grants_data grants).rows = grants.map grantRow) ∧
    (∀ rsus, (format_rsus_data rsus).rows = rsus.map rsuRow) ∧
    (∀ rsas, (format_rsas_data rsas).rows = rsas.map rsaRow) ∧
    ((getVal none = none) ∧ ∀ x : Wrapped, x.value = none → getVal (some x) = none) ∧
    (∀ m : Option MoneyAmount, getAmountVal m = none → dollar m = "$0.00") ∧
    (∀ c : Certificate,
      cell (certRow c) "Security Label" = c.securityLabel ∧
      cell (certRow c) "Share Class" = c.shareClassName ∧
      cell (certRow c) "Quantity" = getVal c.quantity ∧
      cell (certRow c) "Issue Date" = getVal c.issueDate ∧
      cell (certRow c) "Price Per Share" = some (dollar c.pricePerShare)) ∧
    (∀ g : OptionGrant,
      cell (grantRow g) "Grant Label" = g.grantLabel ∧
      cell (grantRow g) "Share Class" = g.shareClassName ∧
      cell (grantRow g) "Grant Date" = getVal g.grantDate ∧
      cell (grantRow g) "Expiration Date" = getVal g.expirationDate ∧
      cell (grantRow g) "Exercise Price" = some (dollar g.exercisePrice) ∧
      cell (grantRow g) "Total Shares" = getVal g.totalShares ∧
      cell (grantRow g) "Vested Shares" = getVal g.vestedShares ∧
      cell (grantRow g) "Unvested Shares" = getVal g.unvestedShares) ∧
    (∀ u : Rsu,
      cell (rsuRow u) "Grant Label" = u.grantLabel ∧
      cell (rsuRow u) "Share Class" = u.shareClassName ∧
      cell (rsuRow u) "Grant Date" = getVal u.grantDate ∧
      cell (rsuRow u) "Total Shares" = getVal u.totalShares ∧
      cell (rsuRow u) "Vested Shares" = getVal u.vestedShares ∧
      cell (rsuRow u) "Unvested Shares" = getVal u.unvestedShares) ∧
    (∀ a : Rsa,
      cell (rsaRow a) "Grant Label" = a.grantLabel ∧
      cell (rsaRow a) "Share Class" = a.shareClassName ∧
      cell (rsaRow a) "Grant Date" = getVal a.grantDate ∧
      cell (rsaRow a) "Total Shares" = getVal a.totalShares ∧
      cell (rsaRow a) "Vested Shares" = getVal a.vestedShares ∧
      cell (rsaRow a) "Unvested Shares" = getVal a.unvestedShares) := by
  refine ⟨fun _ => rfl, fun _ => rfl, fun _ => rfl, fun _ => rfl,
    ⟨rfl, ?_⟩, ?_, ?_, ?_, ?_, ?_⟩
  · intro x hx
    simp [getVal, hx]
  · intro m hm
    simp [dollar, hm]
  · intro c
    exact ⟨rfl, rfl, rfl, rfl, rfl⟩
  · intro g
    exact ⟨rfl, rfl, rfl, rfl, rfl, rfl, rfl, rfl⟩
  · intro u
    exact ⟨rfl, rfl, rfl, rfl, rfl, rfl⟩
  · intro a
    exact ⟨rfl, rfl, rfl, rfl, rfl, rfl⟩

/-- Witness for the amended C2: the conjuncts with hypotheses evaluated at
concrete absent fields. -/
theorem formatters_total_on_absent_fields_witness :
    getVal (some ⟨none⟩) = none ∧ dollar none = "$0.00" ∧
    cell (certRow emptyCert) "Quantity" = getVal emptyCert.quantity := by
  have h := formatters_total_on_absent_fields
  exact ⟨h.2.2.2.2.1.2 ⟨none⟩ rfl, h.2.2.2.2.2.1 none rfl,
    (h.2.2.2.2.2.2.1 emptyCert).2.2.1⟩

/-- C6: in the per-type formatters the currency cells are always strings
prefixed with a dollar sign: "$" followed by the extracted
pricePerShare.amount.value / exercisePrice.amount.value when the whole
nesting is present, and the literal "$0.00" when any level of the nesting
is absent. -/
theorem currency_cells_dollar_formatted (c : Certificate) (g : OptionGrant) :
    (∃ s, cell (certRow c) "Price Per Share" = some ("$" ++ s)) ∧
    (∀ v, getAmountVal c.pricePerShare = some v →
      cell (certRow c) "Price Per Share" = some ("$" ++ v)) ∧
    (getAmountVal c.pricePerShare = none →
      cell (certRow c) "Price Per Share" = some "$0.00") ∧
    (∃ s, cell (grantRow g) "Exercise Price" = some ("$" ++ s)) ∧
    (∀ v, getAmountVal g.exercisePrice = some v →
      cell (grantRow g) "Exercise Price" = some ("$" ++ v)) ∧
    (getAmountVal g.exercisePrice = none →
      cell (grantRow g) "Exercise Price" = some "$0.00") := by
  have hc : cell (certRow c) "Price Per Share" = some (dollar c.pricePerShare) := rfl
  have hg : cell (grantRow g) "Exercise Price" = some (dollar g.exercisePrice) := rfl
  refine ⟨⟨(getAmountVal c.pricePerShare).getD "0.00", hc⟩, ?_, ?_,
    ⟨(getAmountVal g.exercisePrice).getD "0.00", hg⟩, ?_, ?_⟩
  · intro v hv; rw [hc]; simp [dollar, hv]
  · intro hv; rw [hc]; simp [dollar, hv]
  · intro v hv; rw [hg]; simp [dollar, hv]
  · intro hv; rw [hg]; simp [dollar, hv]

/-- Witness for C6: present currency values are prefixed, absent ones
render "$0.00". -/
theorem currency_cells_dollar_formatted_witness :
    cell (certRow certFix) "Price Per Share" = some "$10.50" ∧
    cell (grantRow grantFix) "Exercise Price" = some "$5.00" ∧
    cell (certRow emptyCert) "Price Per Share" = some "$0.00" ∧
    cell (grantRow emptyGrant) "Exercise Price" = some "$0.00" := by
  have h1 := currency_cells_dollar_formatted certFix grantFix
  have h2 := currency_cells_dollar_formatted emptyCert emptyGrant
  exact ⟨h1.2.1 "10.50" rfl, h1.2.2.2.2.1 "5.00" rfl, h2.2.2.1 rfl,
    h2.2.2.2.2.2 rfl⟩

/-- Counterexample to C3: with one fully populated record of each type,
the certificate row of format_all_securities_data carries the value of
quantity.value in its "Total Shares" column, although "Total Shares" is
not in the certificate per-type column set; C3 claims every such
type-irrelevant column is null.  (The grant, RSU and RSA rows likewise
carry totalShares.value in the "Quantity" column, which is not in their
per-type column sets.) -/
theorem union_populates_type_irrelevant_column :
    cell (((format_all_securities_data [certFix] [grantFix] [rsuFix] [rsaFix]
        "PORT-123" "ISS-456").rows).getD 0 []) "Total Shares" = some "1000" ∧
    ¬ "Total Shares" ∈ CERTIFICATE_COLUMNS ∧
    (some "1000" : Option String) ≠ none ∧
    cell (((format_all_securities_data [certFix] [grantFix] [rsuFix] [rsaFix]
        "PORT-123" "ISS-456").rows).getD 1 []) "Quantity" = some "2000" ∧
    ¬ "Quantity" ∈ OPTION_GRANT_COLUMNS := by
  decide

/-- C3 as amended: for one record of each type,
format_all_securities_data returns exactly four rows, in the order
certificate, option grant, RSU, RSA, tagged "Certificate", "Option
Grant", "RSU", "RSA"; in each row the context columns Security Type,
Portfolio ID and Issuer ID are populated, every type-relevant column
holds the same value the per-type formatter produces for that record
(with the per-type "Grant Label" value appearing in the union "Security
Label" column), the certificate row's "Total Shares" duplicates its
"Quantity" (both from quantity.value), the grant, RSU and RSA rows'
"Quantity" duplicates their "Total Shares" (both from totalShares.value),
the remaining type-irrelevant columns are null, and the currency columns
hold the dollar-prefixed value when present but null (rather than the
per-type "$0.00") when absent, as the trailing conjuncts show. -/
theorem union_matches_per_type_rows (c : Certificate) (g : OptionGrant) (u : Rsu)
    (a : Rsa) (portfolio_id issuer_id : String) :
    (format_all_securities_data [c] [g] [u] [a] portfolio_id issuer_id).rows =
      [[("Security Type", some "Certificate"),
        ("Portfolio ID", some portfolio_id),
        ("Issuer ID", some issuer_id),
        ("Security Label", cell (certRow c) "Security Label"),
        ("Share Class", cell (certRow c) "Share Class"),
        ("Quantity", cell (certRow c) "Quantity"),
        ("Issue Date", cell (certRow c) "Issue Date"),
        ("Price Per Share", (getAmountVal c.pricePerShare).map fun x => "$" ++ x),
        ("Grant Date", none),
        ("Expiration Date", none),
        ("Exercise Price", none),
        ("Total Shares", cell (certRow c) "Quantity"),
        ("Vested Shares", none),
        ("Unvested Shares", none)],
       [("Security Type", some "Option Grant"),
        ("Portfolio ID", some portfolio_id),
        ("Issuer ID", some issuer_id),
        ("Security Label", cell (grantRow g) "Grant Label"),
        ("Share Class", cell (grantRow g) "Share Class"),
        ("Quantity", cell (grantRow g) "Total Shares"),
        ("Issue Date", none),
        ("Price Per Share", none),
        ("Grant Date", cell (grantRow g) "Grant Date"),
        ("Expiration Date", cell (grantRow g) "Expiration Date"),
        ("Exercise Price", (getAmountVal g.exercisePrice).map fun x => "$" ++ x),
        ("Total Shares", cell (grantRow g) "Total Shares"),
        ("Vested Shares", cell (grantRow g) "Vested Shares"),
        ("Unvested Shares", cell (grantRow g) "Unvested Shares")],
       [("Security Type", some "RSU"),
        ("Portfolio ID", some portfolio_id),
        ("Issuer ID", some issuer_id),
        ("Security Label", cell (rsuRow u) "Grant Label"),
        ("Share Class", cell (rsuRow u) "Share Class"),
        ("Quantity", cell (rsuRow u) "Total Shares"),
        ("Issue Date", none),
        ("Price Per Share", none),
        ("Grant Date", cell (rsuRow u) "Grant Date"),
        ("Expiration Date", none),
        ("Exercise Price", none),
        ("Total Shares", cell (rsuRow u) "Total Shares"),
        ("Vested Shares", cell (rsuRow u) "Vested Shares"),
        ("Unvested Shares", cell (rsuRow u) "Unvested Shares")],
       [("Security Type", some "RSA"),
        ("Portfolio ID", some portfolio_id),
        ("Issuer ID", some issuer_id),
        ("Security Label", cell (rsaRow a) "Grant Label"),
        ("Share Class", cell (rsaRow a) "Share Class"),
        ("Quantity", cell (rsaRow a) "Total Shares"),
        ("Issue Date", none),
        ("Price Per Share", none),
        ("Grant Date", cell (rsaRow a) "Grant Date"),
        ("Expiration Date", none),
        ("Exercise Price", none),
        ("Total Shares", cell (rsaRow a) "Total Shares"),
        ("Vested Shares", cell (rsaRow a) "Vested Shares"),
        ("Unvested Shares", cell (rsaRow a) "Unvested Shares")]] ∧
    (∀ v, getAmountVal c.pricePerShare = some v →
      (getAmountVal c.pricePerShare).map (fun x => "$" ++ x) = some ("$" ++ v) ∧
      cell (certRow c) "Price Per Share" = some ("$" ++ v)) ∧
    (getAmountVal c.pricePerShare = none →
      (getAmountVal c.pricePerShare).map (fun x => "$" ++ x) = none ∧
      cell (certRow c) "Price Per Share" = some "$0.00") ∧
    (∀ v, getAmountVal g.exercisePrice = some v →
      (getAmountVal g.exercisePrice).map (fun x => "$" ++ x) = some ("$" ++ v) ∧
      cell (grantRow g) "Exercise Price" = some ("$" ++ v)) ∧
    (getAmountVal g.exercisePrice = none →
      (getAmountVal g.exercisePrice).map (fun x => "$" ++ x) = none ∧
      cell (grantRow g) "Exercise Price" = some "$0.00") := by
  have hc : cell (certRow c) "Price Per Share" = some (dollar c.pricePerShare) := rfl
  have hg : cell (grantRow g) "Exercise Price" = some (dollar g.exercisePrice) := rfl
  refine ⟨rfl, ?_, ?_, ?_, ?_⟩
  · intro v hv; rw [hc]; simp [dollar, hv]
  · intro hv; rw [hc]; simp [dollar, hv]
  · intro v hv; rw [hg]; simp [dollar, hv]
  · intro hv; rw [hg]; simp [dollar, hv]

/-- Witness for the amended C3: the four fixtures produce the four
expected rows, and the currency conjuncts evaluated at the populated
certificate fixture and the empty grant fixture. -/
theorem union_matches_per_type_rows_witness :
    (format_all_securities_data [certFix] [grantFix] [rsuFix] [rsaFix]
        "PORT-123" "ISS-456").rows.length = 4 ∧
    cell (certRow certFix) "Price Per Share" = some "$10.50" ∧
    (getAmountVal emptyGrant.exercisePrice).map (fun x => "$" ++ x) = none ∧
    cell (grantRow emptyGrant) "Exercise Price" = some "$0.00" := by
  have h := union_matches_per_type_rows certFix grantFix rsuFix rsaFix
    "PORT-123" "ISS-456"
  have h2 := union_matches_per_type_rows certFix emptyGrant rsuFix rsaFix
    "PORT-123" "ISS-456"
  refine ⟨?_, (h.2.1 "10.50" rfl).2, (h2.2.2.2.2 rfl).1, (h2.2.2.2.2 rfl).2⟩
  rw [h.1]; rfl

/-- C10: in every row of format_all_securities_data's output the Quantity
column is populated for all four security types — from quantity.value for
certificate rows and from totalShares.value for option grant, RSU and RSA
rows — and in every row the Total Shares column equals the Quantity
column (in particular in certificate rows, where both read
quantity.value). -/
theorem union_quantity_and_total_shares_populated (portfolio_id issuer_id : String)
    (certificates : List Certificate) (option_grants : List OptionGrant)
    (rsus : List Rsu) (rsas : List Rsa) :
    ∀ r ∈ (format_all_securities_data certificates option_grants rsus rsas
        portfolio_id issuer_id).rows,
      cell r "Total Shares" = cell r "Quantity" ∧
      (cell r "Security Type" = some "Certificate" →
        ∃ c ∈ certificates, cell r "Quantity" = getVal c.quantity) ∧
      (cell r "Security Type" = some "Option Grant" →
        ∃ g ∈ option_grants, cell r "Quantity" = getVal g.totalShares) ∧
      (cell r "Security Type" = some "RSU" →
        ∃ u ∈ rsus, cell r "Quantity" = getVal u.totalShares) ∧
      (cell r "Security Type" = some "RSA" →
        ∃ a ∈ rsas, cell r "Quantity" = getVal a.totalShares) := by
  intro r hr
  simp only [format_all_securities_data, List.mem_map, List.mem_append] at hr
  obtain ⟨x, hx, rfl⟩ := hr
  rcases hx with ((⟨c, hc, rfl⟩ | ⟨g, hg, rfl⟩) | ⟨u, hu, rfl⟩) | ⟨a, ha, rfl⟩
  · have hst : cell (applyCurrencyCol "Exercise Price" (applyCurrencyCol
        "Price Per Share" (certAllRow portfolio_id issuer_id c))) "Security Type" =
        some "Certificate" := rfl
    refine ⟨rfl, fun _ => ⟨c, hc, rfl⟩, fun h => ?_, fun h => ?_, fun h => ?_⟩ <;>
      (rw [hst] at h; exact absurd h (by decide))
  · have hst : cell (applyCurrencyCol "Exercise Price" (applyCurrencyCol
        "Price Per Share" (grantAllRow portfolio_id issuer_id g))) "Security Type" =
        some "Option Grant" := rfl
    refine ⟨rfl, fun h => ?_, fun _ => ⟨g, hg, rfl⟩, fun h => ?_, fun h => ?_⟩ <;>
      (rw [hst] at h; exact absurd h (by decide))
  · have hst : cell (applyCurrencyCol "Exercise Price" (applyCurrencyCol
        "Price Per Share" (rsuAllRow portfolio_id issuer_id u))) "Security Type" =
        some "RSU" := rfl
    refine ⟨rfl, fun h => ?_, fun h => ?_, fun _ => ⟨u, hu, rfl⟩, fun h => ?_⟩ <;>
      (rw [hst] at h; exact absurd h (by decide))
  · have hst : cell (applyCurrencyCol "Exercise Price" (applyCurrencyCol
        "Price Per Share" (rsaAllRow portfolio_id issuer_id a))) "Security Type" =
        some "RSA" := rfl
    refine ⟨rfl, fun h => ?_, fun h => ?_, fun h => ?_, fun _ => ⟨a, ha, rfl⟩⟩ <;>
      (rw [hst] at h; exact absurd h (by decide))

/-- Witness for C10: the certificate row of the four-fixture union has
Total Shares equal to Quantity, both populated from quantity.value. -/
theorem union_quantity_and_total_shares_populated_witness :
    cell (((format_all_securities_data [certFix] [grantFix] [rsuFix] [rsaFix]
        "P" "I").rows).getD 0 []) "Total Shares" =
      cell (((format_all_securities_data [certFix] [grantFix] [rsuFix] [rsaFix]
        "P" "I").rows).getD 0 []) "Quantity" ∧
    ∃ c ∈ [certFix],
      cell (((format_all_securities_data [certFix] [grantFix] [rsuFix] [rsaFix]
        "P" "I").rows).getD 0 []) "Quantity" = getVal c.quantity := by
  have h := union_quantity_and_total_shares_populated "P" "I" [certFix] [grantFix]
    [rsuFix] [rsaFix]
    (((format_all_securities_data [certFix] [grantFix] [rsuFix] [rsaFix]
      "P" "I").rows).getD 0 []) (by decide)
  exact ⟨h.1, h.2.1 (by decide)⟩
